import Mathlib

/-!
Verification of the session-and-memory orchestration core of the `evo`
conversational-agent repository, as a shallow embedding in Lean 4.

Embedded components:
* the streaming event pipeline of `src/main.py` (`process_user_input`),
  including its exception handling and the background-memory hand-off;
* the memory subsystem of `src/ai_agents/memory.py`
  (`save_memory`, `recall_memory`, `_ensure_collection_exists`,
  `_generate_embedding`), with the embedding provider and the vector
  store modelled as oracles supplying the outcome of each external call;
* environment validation of `src/config/settings.py`
  (`validate_environment`) and the startup sequence of `src/main.py`
  (`main`);
* `SessionManager.cleanup` of `src/config/session_manager.py`.
-/

namespace Evo

/-! ## Streaming event pipeline (`src/main.py`, `process_user_input`)

A raw event is classified by `process_user_input` via its discriminant:
`raw_response_event` whose `data.type` is
`"response.reasoning_summary_text.delta"` (a reasoning delta),
`raw_response_event` whose `data` class is `ResponseTextDeltaEvent`
(a final-answer delta), or anything else (ignored).  A missing or empty
(falsy) `delta` attribute is modelled as the empty string. -/

inductive RawEvent where
  | reasoningDelta (delta : String)
  | answerDelta (delta : String)
  | other
deriving DecidableEq, Repr

/-- An item of user-visible output produced while processing one turn.
Each constructor corresponds to one `print` site of `process_user_input`. -/
inductive OutItem where
  /-- `"[REASONING] Reasoning Process:"` header plus its dashed rule. -/
  | reasoningOpenMarker
  /-- a reasoning delta streamed in gray. -/
  | reasoningText (s : String)
  /-- the dashed rule printed when the response channel opens after reasoning. -/
  | reasoningCloseMarker
  /-- `"[RESPONSE] Agent Response:"` header plus its dashed rule. -/
  | responseOpenMarker
  /-- a final-answer delta streamed verbatim. -/
  | responseText (s : String)
  /-- `"[ERROR] Streaming error occurred: ..."` from the `except` branch. -/
  | errorMsg (s : String)
deriving DecidableEq, Repr

/-- The loop state of `process_user_input`: the two channel flags and the
`agent_response_text` accumulator. -/
structure PipeState where
  reasoningStarted : Bool
  responseStarted : Bool
  acc : List String
deriving DecidableEq, Repr

/-- State at the top of `process_user_input`'s `try` block. -/
def initState : PipeState := ⟨false, false, []⟩

/-- One iteration of the `async for event in result.stream_events()` body:
returns the updated state and the output emitted for this event, in order. -/
def stepEvent (s : PipeState) (e : RawEvent) : PipeState × List OutItem :=
  match e with
  | .reasoningDelta d =>
    let (s1, out1) :=
      if s.reasoningStarted then (s, ([] : List OutItem))
      else ({ s with reasoningStarted := true }, [.reasoningOpenMarker])
    if d ≠ "" then (s1, out1 ++ [.reasoningText d]) else (s1, out1)
  | .answerDelta d =>
    let (s1, out1) :=
      if s.responseStarted then (s, ([] : List OutItem))
      else ({ s with responseStarted := true },
            (if s.reasoningStarted then [OutItem.reasoningCloseMarker] else [])
              ++ [OutItem.responseOpenMarker])
    if d ≠ "" then ({ s1 with acc := s1.acc ++ [d] }, out1 ++ [.responseText d])
    else (s1, out1)
  | .other => (s, [])

/-- Run the event loop over a list of raw events, collecting all output. -/
def runEvents (s : PipeState) : List RawEvent → PipeState × List OutItem
  | [] => (s, [])
  | e :: es =>
    let (s1, out1) := stepEvent s e
    let (s2, out2) := runEvents s1 es
    (s2, out1 ++ out2)

/-- The four-event synthetic stream of the spec's streaming-classification
property: reasoning deltas `"a"`, `"b"`, then answer deltas `"x"`, `"y"`. -/
def c1Events : List RawEvent :=
  [.reasoningDelta "a", .reasoningDelta "b", .answerDelta "x", .answerDelta "y"]

/-! ### Exceptions while consuming the stream

A raw stream is a list of items, each either a yielded event or an
exception raised by the stream at that point.  Iteration stops at the
first raised exception, which propagates out of the `async for` loop. -/

inductive StreamItem where
  | ev (e : RawEvent)
  | exn (msg : String)
deriving DecidableEq, Repr

/-- The body of `process_user_input`'s `try` block up to and including the
event loop: processes items in order, stopping at the first raised
exception (whose message is returned in the third component; `none` means
the stream completed normally). -/
def runItems (s : PipeState) : List StreamItem → PipeState × List OutItem × Option String
  | [] => (s, [], none)
  | .ev e :: rest =>
    let (s1, out1) := stepEvent s e
    let (s2, out2, err) := runItems s1 rest
    (s2, out1 ++ out2, err)
  | .exn m :: _ => (s, [], some m)

/-- Python `str.strip()`: remove leading and trailing whitespace.  Defined by
structural recursion over the character list so that it evaluates inside the
kernel. -/
def pyStrip (s : String) : String :=
  ⟨((s.data.dropWhile Char.isWhitespace).reverse.dropWhile Char.isWhitespace).reverse⟩

/-- `process_user_input` for one turn: runs the event loop inside `try`;
on an exception, the `except` branch prints a visible error message and the
function returns normally with no memory hand-off; on normal completion the
background memory hand-off `start_memory_processing(user_input, full_response)`
is fired exactly when `full_response.strip()` is truthy.  The second
component is the hand-off argument pair (`none` = no hand-off). -/
def process_user_input (user_input : String) (items : List StreamItem) :
    List OutItem × Option (String × String) :=
  let (s, out, err) := runItems initState items
  match err with
  | some m => (out ++ [.errorMsg m], none)
  | none =>
    let full_response := String.join s.acc
    (out, if pyStrip full_response ≠ "" then some (user_input, full_response) else none)

/-- The interactive chat loop of `main` (`src/main.py`): each queued user
turn is processed in order by `process_user_input`; a turn is a user input
paired with the raw stream the agent produces for it. -/
def chat_loop (turns : List (String × List StreamItem)) :
    List (List OutItem × Option (String × String)) :=
  turns.map fun t => process_user_input t.1 t.2

/-! ### Pipeline lemmas -/

/-- The `reasoning_started` flag never transitions back to `false`. -/
lemma stepEvent_reasoning_mono (s : PipeState) (e : RawEvent)
    (h : s.reasoningStarted = true) : ((stepEvent s e).1).reasoningStarted = true := by
  obtain ⟨rs, ps, a⟩ := s
  cases h
  cases e with
  | reasoningDelta d => by_cases hd : d = "" <;> cases ps <;> simp [stepEvent, hd]
  | answerDelta d => by_cases hd : d = "" <;> cases ps <;> simp [stepEvent, hd]
  | other => simp [stepEvent]

/-- The `response_started` flag never transitions back to `false`. -/
lemma stepEvent_response_mono (s : PipeState) (e : RawEvent)
    (h : s.responseStarted = true) : ((stepEvent s e).1).responseStarted = true := by
  obtain ⟨rs, ps, a⟩ := s
  cases h
  cases e with
  | reasoningDelta d => by_cases hd : d = "" <;> cases rs <;> simp [stepEvent, hd]
  | answerDelta d => by_cases hd : d = "" <;> cases rs <;> simp [stepEvent, hd]
  | other => simp [stepEvent]

/-- After any step, the reasoning flag is at least what it was; and a step
emits a reasoning-open marker only when the flag was `false`, setting it. -/
lemma stepEvent_reasoningOpen_count (s : PipeState) (e : RawEvent) :
    ((stepEvent s e).2).count OutItem.reasoningOpenMarker
      + (if ((stepEvent s e).1).reasoningStarted then 0 else 1)
      ≤ (if s.reasoningStarted then 0 else 1) := by
  obtain ⟨rs, ps, a⟩ := s
  cases e with
  | reasoningDelta d =>
    by_cases hd : d = "" <;> cases rs <;> cases ps <;>
      simp [stepEvent, hd, List.count_cons]
  | answerDelta d =>
    by_cases hd : d = "" <;> cases rs <;> cases ps <;>
      simp [stepEvent, hd, List.count_cons]
  | other => cases rs <;> simp [stepEvent]

lemma stepEvent_responseOpen_count (s : PipeState) (e : RawEvent) :
    ((stepEvent s e).2).count OutItem.responseOpenMarker
      + (if ((stepEvent s e).1).responseStarted then 0 else 1)
      ≤ (if s.responseStarted then 0 else 1) := by
  obtain ⟨rs, ps, a⟩ := s
  cases e with
  | reasoningDelta d =>
    by_cases hd : d = "" <;> cases rs <;> cases ps <;>
      simp [stepEvent, hd, List.count_cons]
  | answerDelta d =>
    by_cases hd : d = "" <;> cases rs <;> cases ps <;>
      simp [stepEvent, hd, List.count_cons]
  | other => cases ps <;> simp [stepEvent]

/-- Marker-count invariant over a whole run: starting from state `s`, the
number of reasoning-open markers emitted is bounded by `1` if the reasoning
channel is not yet open and by `0` if it already is. -/
lemma runEvents_reasoningOpen_count (es : List RawEvent) (s : PipeState) :
    ((runEvents s es).2).count OutItem.reasoningOpenMarker
      ≤ (if s.reasoningStarted then 0 else 1) := by
  induction es generalizing s with
  | nil => simp [runEvents]
  | cons e es ih =>
    simp only [runEvents, List.count_append]
    have h1 := stepEvent_reasoningOpen_count s e
    have h2 := ih (stepEvent s e).1
    omega

lemma runEvents_responseOpen_count (es : List RawEvent) (s : PipeState) :
    ((runEvents s es).2).count OutItem.responseOpenMarker
      ≤ (if s.responseStarted then 0 else 1) := by
  induction es generalizing s with
  | nil => simp [runEvents]
  | cons e es ih =>
    simp only [runEvents, List.count_append]
    have h1 := stepEvent_responseOpen_count s e
    have h2 := ih (stepEvent s e).1
    omega

/-- The first answer delta seen while reasoning is open emits the
reasoning-close marker immediately followed by the response-open marker. -/
lemma stepEvent_close_before_open (s : PipeState) (d : String)
    (hresp : s.responseStarted = false) (hreas : s.reasoningStarted = true) :
    ∃ rest, (stepEvent s (.answerDelta d)).2
      = OutItem.reasoningCloseMarker :: OutItem.responseOpenMarker :: rest := by
  simp only [stepEvent, hresp, hreas, if_false, if_true]
  by_cases hd : d = "" <;> simp [hd]

/-- An exception raised mid-stream stops iteration there: the events before
it are processed and everything after it is never consumed. -/
lemma runItems_exn (pre : List RawEvent) (s : PipeState) (msg : String)
    (rest : List StreamItem) :
    runItems s (pre.map StreamItem.ev ++ StreamItem.exn msg :: rest)
      = ((runEvents s pre).1, (runEvents s pre).2, some msg) := by
  induction pre generalizing s with
  | nil => simp [runItems, runEvents]
  | cons e es ih => simp [runItems, runEvents, ih]

/-- A stream with no raised exception runs to completion. -/
lemma runItems_pure (evs : List RawEvent) (s : PipeState) :
    runItems s (evs.map StreamItem.ev)
      = ((runEvents s evs).1, (runEvents s evs).2, none) := by
  induction evs generalizing s with
  | nil => simp [runItems, runEvents]
  | cons e es ih => simp [runItems, runEvents, ih]

/-! ### Claim theorems for the streaming pipeline -/

/-- C1: on the input event sequence
[reasoning-delta "a", reasoning-delta "b", answer-delta "x", answer-delta "y"]
the pipeline emits exactly one reasoning-channel-open marker, before the
payload "a"; exactly one response-channel-open marker, before the payload
"x"; and the accumulated final-answer buffer at completion equals "xy". -/
theorem C1_streaming_classification :
    ((runEvents initState c1Events).2).count OutItem.reasoningOpenMarker = 1
    ∧ List.indexOf OutItem.reasoningOpenMarker ((runEvents initState c1Events).2)
        < List.indexOf (OutItem.reasoningText "a") ((runEvents initState c1Events).2)
    ∧ (OutItem.reasoningText "a") ∈ (runEvents initState c1Events).2
    ∧ ((runEvents initState c1Events).2).count OutItem.responseOpenMarker = 1
    ∧ List.indexOf OutItem.responseOpenMarker ((runEvents initState c1Events).2)
        < List.indexOf (OutItem.responseText "x") ((runEvents initState c1Events).2)
    ∧ (OutItem.responseText "x") ∈ (runEvents initState c1Events).2
    ∧ String.join ((runEvents initState c1Events).1).acc = "xy" := by
  decide

/-- C2: an exception raised while iterating the stream aborts the remaining
iteration (`runItems` never consumes items past the raise), is caught inside
`process_user_input`, which returns normally with a visible error message
appended to the output and no memory hand-off, and the host chat loop
continues to process every remaining queued turn. -/
theorem C2_stream_error_contained (pre : List RawEvent) (msg : String)
    (rest : List StreamItem) (u : String) (turns : List (String × List StreamItem)) :
    runItems initState (pre.map StreamItem.ev ++ StreamItem.exn msg :: rest)
      = ((runEvents initState pre).1, (runEvents initState pre).2, some msg)
    ∧ process_user_input u (pre.map StreamItem.ev ++ StreamItem.exn msg :: rest)
      = ((runEvents initState pre).2 ++ [OutItem.errorMsg msg], none)
    ∧ chat_loop ((u, pre.map StreamItem.ev ++ StreamItem.exn msg :: rest) :: turns)
      = ((runEvents initState pre).2 ++ [OutItem.errorMsg msg], none) :: chat_loop turns
    ∧ (chat_loop turns).length = turns.length := by
  have h2 : process_user_input u (pre.map StreamItem.ev ++ StreamItem.exn msg :: rest)
      = ((runEvents initState pre).2 ++ [OutItem.errorMsg msg], none) := by
    simp [process_user_input, runItems_exn]
  refine ⟨runItems_exn pre initState msg rest, h2, ?_, List.length_map _ _⟩
  simp [chat_loop, h2]

/-- C4: the per-channel flags are monotonic (once started, never reset); each
channel-open marker is emitted at most once per invocation; and when
reasoning had started before the first answer delta, a reasoning-close
marker is emitted immediately before the response-open marker. -/
theorem C4_monotonic_flags_markers_once (s : PipeState) (e : RawEvent)
    (es : List RawEvent) (d : String) :
    (s.reasoningStarted = true → ((stepEvent s e).1).reasoningStarted = true)
    ∧ (s.responseStarted = true → ((stepEvent s e).1).responseStarted = true)
    ∧ ((runEvents initState es).2).count OutItem.reasoningOpenMarker ≤ 1
    ∧ ((runEvents initState es).2).count OutItem.responseOpenMarker ≤ 1
    ∧ (s.responseStarted = false → s.reasoningStarted = true →
        ∃ rest, (stepEvent s (.answerDelta d)).2
          = OutItem.reasoningCloseMarker :: OutItem.responseOpenMarker :: rest) := by
  refine ⟨stepEvent_reasoning_mono s e, stepEvent_response_mono s e, ?_, ?_,
    fun h1 h2 => stepEvent_close_before_open s d h1 h2⟩
  · simpa [initState] using runEvents_reasoningOpen_count es initState
  · simpa [initState] using runEvents_responseOpen_count es initState

/-- Witness for C4 at concrete inputs: from the state where reasoning has
started and the response has not, monotonicity and the close-before-open
marker order hold at the event `answer-delta "x"`. -/
theorem C4_monotonic_flags_markers_once_witness :
    ((stepEvent ⟨true, false, []⟩ RawEvent.other).1).reasoningStarted = true
    ∧ ∃ rest, (stepEvent ⟨true, false, []⟩ (RawEvent.answerDelta "x")).2
        = OutItem.reasoningCloseMarker :: OutItem.responseOpenMarker :: rest :=
  ⟨(C4_monotonic_flags_markers_once ⟨true, false, []⟩ RawEvent.other [] "x").1 rfl,
   (C4_monotonic_flags_markers_once ⟨true, false, []⟩ RawEvent.other [] "x").2.2.2.2 rfl rfl⟩

/-- C5 counterexample: for the completed stream [answer-delta " "] the
accumulated final-answer buffer is non-empty (it is `" "`), yet no memory
hand-off is invoked — refuting "invoked iff the accumulated text is
non-empty". -/
theorem C5_counterexample_whitespace :
    String.join ((runItems initState [StreamItem.ev (RawEvent.answerDelta " ")]).1).acc ≠ ""
    ∧ (process_user_input "hi" [StreamItem.ev (RawEvent.answerDelta " ")]).2 = none := by
  exact ⟨by decide, by decide⟩

/-- C5 (amended): after a stream completes without an exception, the memory
hand-off is invoked, with the user input and accumulated response, if and
only if the accumulated final-answer text is non-empty after stripping
whitespace (Python `str.strip`); otherwise no hand-off occurs. -/
theorem C5_handoff_iff_stripped_nonempty (u : String) (evs : List RawEvent) :
    ((process_user_input u (evs.map StreamItem.ev)).2
        = some (u, String.join ((runEvents initState evs).1).acc)
      ↔ pyStrip (String.join ((runEvents initState evs).1).acc) ≠ "")
    ∧ ((process_user_input u (evs.map StreamItem.ev)).2 = none
      ↔ pyStrip (String.join ((runEvents initState evs).1).acc) = "") := by
  by_cases h : pyStrip (String.join ((runEvents initState evs).1).acc) = "" <;>
    simp [process_user_input, runItems_pure, h]

/-! ## Memory subsystem (`src/ai_agents/memory.py`)

External calls (OpenAI embeddings, QDRANT collections/upsert/search) are
modelled by an oracle record giving each call's outcome for the operation
under consideration; `Except.error` means the call raises.  Embedding
vectors are opaque (`List Int`); similarity scores, `float` in the source,
are modelled as `Int` since only their order matters to any claim. -/

def COLLECTION_NAME : String := "memory"

/-- A point stored in the vector store: the id, the embedding vector, and
the payload fields written by `save_memory` (`content`, `timestamp`). -/
structure PointStruct where
  id : String
  vector : List Int
  content : String
  timestamp : String
deriving DecidableEq, Repr

/-- A search hit returned by the vector store: id, similarity score, and the
`content` payload field. -/
structure ScoredPoint where
  id : String
  score : Int
  content : String
deriving DecidableEq, Repr

/-- Outcomes of the external calls the memory subsystem can make during one
operation. -/
structure MemEnv where
  /-- `qdrant_client.get_collections()`: the existing collection names. -/
  get_collections : Except String (List String)
  /-- `qdrant_client.create_collection(...)`. -/
  create_collection : Except String Unit
  /-- `openai_client.embeddings.create(input, model)`: the raw provider call. -/
  embed : String → Except String (List Int)
  /-- `qdrant_client.upsert(collection_name, points)`. -/
  upsert : Except String Unit
  /-- `qdrant_client.search(collection_name, query_vector, limit)`: the hits,
  in the ranked order the store returns them. -/
  search : Nat → Except String (List ScoredPoint)

/-- `_ensure_collection_exists`: checks the collection listing and creates
the collection if absent; any failure is caught inside the function and
reduced to a printed warning (returned here as `some warning`), after which
the caller proceeds. -/
def _ensure_collection_exists (env : MemEnv) : Option String :=
  match env.get_collections with
  | .error e => some ("Warning: Could not ensure collection exists: " ++ e)
  | .ok names =>
    if COLLECTION_NAME ∈ names then none
    else
      match env.create_collection with
      | .error e => some ("Warning: Could not ensure collection exists: " ++ e)
      | .ok _ => none

/-- `_generate_embedding`: calls the provider; on failure re-raises with the
`"Failed to generate embedding: "` prefix. -/
def _generate_embedding (env : MemEnv) (text : String) : Except String (List Int) :=
  match env.embed text with
  | .ok v => .ok v
  | .error e => .error ("Failed to generate embedding: " ++ e)

/-- QDRANT upsert semantics for a single point: overwrite the point with the
same id if present, otherwise insert. -/
def upsertPoint (store : List PointStruct) (p : PointStruct) : List PointStruct :=
  if store.any fun q => q.id == p.id then
    store.map fun q => if q.id == p.id then p else q
  else store ++ [p]

/-- The `try` body of `save_memory`: ensure the collection (failures
swallowed there), generate the embedding (may raise), upsert (may raise),
return the confirmation message and the updated store. -/
def save_memory_body (env : MemEnv) (memory_id timestamp content : String)
    (store : List PointStruct) : Except String (String × List PointStruct) :=
  match _ensure_collection_exists env with
  | _ =>
    match _generate_embedding env content with
    | .error e => .error e
    | .ok vector =>
      match env.upsert with
      | .error e => .error e
      | .ok _ =>
        .ok ("Memory saved successfully with ID: " ++ memory_id,
             upsertPoint store ⟨memory_id, vector, content, timestamp⟩)

/-- `save_memory`: the whole body runs inside `try`; any exception is caught
and returned as a `"Failed to save memory: ..."` string, the store left as
it was.  `memory_id` and `timestamp` stand for the freshly generated
`uuid.uuid4()` and `uuid.uuid1().time` values. -/
def save_memory (env : MemEnv) (memory_id timestamp content : String)
    (store : List PointStruct) : String × List PointStruct :=
  match save_memory_body env memory_id timestamp content store with
  | .ok r => r
  | .error e => ("Failed to save memory: " ++ e, store)

/-- The rank-numbered results list: `enumerate(search_results, 1)`. -/
def recallRanked (hits : List ScoredPoint) : List (Nat × ScoredPoint) :=
  List.enumFrom 1 hits

/-- One formatted entry:
`f"{i}. [ID: {memory_id}] (Score: {score:.3f})\n   {content}\n"`
(the float format specifier is modelled by plain `toString`). -/
def formatResult (r : Nat × ScoredPoint) : String :=
  toString r.1 ++ ". [ID: " ++ r.2.id ++ "] (Score: " ++ toString r.2.score
    ++ ")\n   " ++ r.2.content ++ "\n"

/-- The `try` body of `recall_memory`: ensure the collection (failures
swallowed there), embed the query (may raise), search (may raise); an empty
hit list yields the empty-result sentinel, otherwise the formatted ranked
results. -/
def recall_memory_body (env : MemEnv) (query : String) (limit : Nat) :
    Except String String :=
  match _ensure_collection_exists env with
  | _ =>
    match _generate_embedding env query with
    | .error e => .error e
    | .ok _query_vector =>
      match env.search limit with
      | .error e => .error e
      | .ok hits =>
        if hits.isEmpty then .ok "No relevant memories found."
        else
          .ok ("Relevant memories:\n\n"
            ++ String.intercalate "\n" ((recallRanked hits).map formatResult))

/-- `recall_memory`: the body runs inside `try`; any exception is caught and
returned as a `"Failed to recall memory: ..."` string. -/
def recall_memory (env : MemEnv) (query : String) (limit : Nat) : String :=
  match recall_memory_body env query limit with
  | .ok r => r
  | .error e => "Failed to recall memory: " ++ e

/-- Recognizer for `recall_memory` error results (the `"Failed to recall
memory: "` prefix), stated over the character list so that it evaluates. -/
def isRecallFailure (s : String) : Bool :=
  List.isPrefixOf ("Failed to recall memory: ").data s.data

/-- An oracle where the collection-existence check raises but the embedding
provider and the store calls succeed (store empty). -/
def collectionsDownEnv : MemEnv where
  get_collections := .error "store down"
  create_collection := .ok ()
  embed := fun _ => .ok [1]
  upsert := .ok ()
  search := fun _ => .ok []

/-- An oracle where the embedding provider raises and the search raises. -/
def embedDownEnv : MemEnv where
  get_collections := .ok ["memory"]
  create_collection := .ok ()
  embed := fun _ => .error "quota"
  upsert := .ok ()
  search := fun _ => .error "connection refused"

/-! ### Claim theorems for the memory subsystem -/

/-- C3 counterexample: when the collection-existence check raises (and the
other calls succeed), `_ensure_collection_exists` swallows the failure into
a printed warning and `save_memory` returns the success message — not an
error string describing the failure; `recall_memory` likewise returns the
empty-result sentinel. -/
theorem C3_counterexample_collection_check :
    collectionsDownEnv.get_collections = Except.error "store down"
    ∧ _ensure_collection_exists collectionsDownEnv
        = some "Warning: Could not ensure collection exists: store down"
    ∧ (save_memory collectionsDownEnv "id0" "ts0" "hello" []).1
        = "Memory saved successfully with ID: id0"
    ∧ recall_memory collectionsDownEnv "hello" 5 = "No relevant memories found." := by
  refine ⟨rfl, by decide, by decide, by decide⟩

/-- C3 (amended): `save_memory` and `recall_memory` never raise past the
caller; embedding-provider failures and vector-store failures (upsert,
search) are returned as human-readable error strings; a failing
collection-existence check, however, is swallowed inside
`_ensure_collection_exists` (only a warning is printed) and the operation
proceeds. -/
theorem C3_no_raise_errors_as_strings (env : MemEnv)
    (memory_id timestamp content query : String) (store : List PointStruct)
    (limit : Nat) :
    (∀ e, save_memory_body env memory_id timestamp content store = .error e →
      save_memory env memory_id timestamp content store
        = ("Failed to save memory: " ++ e, store))
    ∧ (∀ e, env.embed content = .error e →
      (save_memory env memory_id timestamp content store).1
        = "Failed to save memory: Failed to generate embedding: " ++ e)
    ∧ (∀ e v, env.embed content = .ok v → env.upsert = .error e →
      (save_memory env memory_id timestamp content store).1
        = "Failed to save memory: " ++ e)
    ∧ (∀ e, recall_memory_body env query limit = .error e →
      recall_memory env query limit = "Failed to recall memory: " ++ e)
    ∧ (∀ e, env.embed query = .error e →
      recall_memory env query limit
        = "Failed to recall memory: Failed to generate embedding: " ++ e)
    ∧ (∀ e v, env.embed query = .ok v → env.search limit = .error e →
      recall_memory env query limit = "Failed to recall memory: " ++ e) := by
  have hs : ("Failed to save memory: " : String) ++ "Failed to generate embedding: "
      = "Failed to save memory: Failed to generate embedding: " := by decide
  have hr : ("Failed to recall memory: " : String) ++ "Failed to generate embedding: "
      = "Failed to recall memory: Failed to generate embedding: " := by decide
  refine ⟨fun e h => ?_, fun e h => ?_, fun e v h1 h2 => ?_, fun e h => ?_,
    fun e h => ?_, fun e v h1 h2 => ?_⟩
  · simp [save_memory, h]
  · simp [save_memory, save_memory_body, _generate_embedding, h,
      ← String.append_assoc, hs]
  · simp [save_memory, save_memory_body, _generate_embedding, h1, h2]
  · simp [recall_memory, h]
  · simp [recall_memory, recall_memory_body, _generate_embedding, h,
      ← String.append_assoc, hr]
  · simp [recall_memory, recall_memory_body, _generate_embedding, h1, h2]

/-- Witness for C3 (amended) at the concrete oracle `embedDownEnv`. -/
theorem C3_no_raise_errors_as_strings_witness :
    (save_memory embedDownEnv "id0" "ts0" "hello" []).1
      = "Failed to save memory: Failed to generate embedding: quota"
    ∧ recall_memory embedDownEnv "q" 5
      = "Failed to recall memory: Failed to generate embedding: quota" :=
  ⟨(C3_no_raise_errors_as_strings embedDownEnv "id0" "ts0" "hello" "q" [] 5).2.1
      "quota" rfl,
   (C3_no_raise_errors_as_strings embedDownEnv "id0" "ts0" "hello" "q" [] 5).2.2.2.2.1
      "quota" rfl⟩

/-- C6: when the embedding succeeds and the vector search returns no hits,
`recall_memory` returns the explicit empty-result sentinel, and the sentinel
is distinct from every error result (which all carry the
`"Failed to recall memory: "` prefix). -/
theorem C6_empty_search_sentinel (env : MemEnv) (query : String) (limit : Nat)
    (v : List Int) (hembed : env.embed query = .ok v)
    (hsearch : env.search limit = .ok []) :
    recall_memory env query limit = "No relevant memories found."
    ∧ isRecallFailure "No relevant memories found." = false
    ∧ (∀ e, isRecallFailure ("Failed to recall memory: " ++ e) = true)
    ∧ (∀ e, recall_memory env query limit ≠ "Failed to recall memory: " ++ e) := by
  have hsent : recall_memory env query limit = "No relevant memories found." := by
    simp [recall_memory, recall_memory_body, _generate_embedding, hembed, hsearch]
  have hfalse : isRecallFailure "No relevant memories found." = false := by decide
  have htrue : ∀ e, isRecallFailure ("Failed to recall memory: " ++ e) = true := by
    intro e
    simp only [isRecallFailure, String.data_append, List.isPrefixOf_iff_prefix]
    exact List.prefix_append _ _
  refine ⟨hsent, hfalse, htrue, fun e h => ?_⟩
  rw [hsent] at h
  rw [h] at hfalse
  rw [htrue e] at hfalse
  simp at hfalse

/-- Witness for C6 at the concrete oracle `collectionsDownEnv` (its search
returns no hits). -/
theorem C6_empty_search_sentinel_witness :
    recall_memory collectionsDownEnv "q" 5 = "No relevant memories found." :=
  (C6_empty_search_sentinel collectionsDownEnv "q" 5 [1] rfl rfl).1

/-- C8: the rank-numbered result list preserves the store's ranked order
(the hits in position order), attaches rank `i + 1` to the element at
position `i`, hence is non-increasing in score whenever the store's hits
are; and with a successful embedding and search the returned string is the
formatted ranked list. -/
theorem C8_recall_ranked_order (hits : List ScoredPoint)
    (hsorted : List.Pairwise (fun a b => b.score ≤ a.score) hits) :
    List.Pairwise (fun a b => b.2.score ≤ a.2.score) (recallRanked hits)
    ∧ (∀ i (h : i < (recallRanked hits).length),
        ((recallRanked hits).get ⟨i, h⟩).1 = i + 1)
    ∧ (recallRanked hits).map Prod.snd = hits
    ∧ (∀ env q lim v, env.embed q = Except.ok v → env.search lim = .ok hits →
        hits ≠ [] →
        recall_memory env q lim = "Relevant memories:\n\n"
          ++ String.intercalate "\n" ((recallRanked hits).map formatResult)) := by
  have hsnd : (recallRanked hits).map Prod.snd = hits :=
    List.enumFrom_map_snd 1 hits
  refine ⟨?_, ?_, hsnd, ?_⟩
  · rw [← hsnd] at hsorted
    exact (List.pairwise_map.mp hsorted).imp fun h => h
  · intro i h
    simp only [recallRanked] at h ⊢
    rw [List.get_eq_getElem, List.getElem_enumFrom]
    exact Nat.add_comm 1 i
  · intro env q lim v h1 h2 h3
    simp [recall_memory, recall_memory_body, _generate_embedding, h1, h2,
      List.isEmpty_iff, h3]

/-- Witness for C8 on a concrete two-hit ranked result. -/
theorem C8_recall_ranked_order_witness :
    List.Pairwise (fun a b => b.2.score ≤ a.2.score)
      (recallRanked [⟨"a", 5, "ca"⟩, ⟨"b", 3, "cb"⟩]) :=
  (C8_recall_ranked_order [⟨"a", 5, "ca"⟩, ⟨"b", 3, "cb"⟩] (by decide)).1

/-- C10: two successful `save_memory` calls with identical content and
distinct fresh ids insert two distinct records — no deduplication and no
content-keyed overwrite. -/
theorem C10_two_saves_two_records (env : MemEnv)
    (id1 id2 ts1 ts2 content : String) (store : List PointStruct) (v : List Int)
    (hembed : env.embed content = .ok v) (hupsert : env.upsert = .ok ())
    (hne : id1 ≠ id2)
    (hfresh1 : ∀ p ∈ store, p.id ≠ id1) (hfresh2 : ∀ p ∈ store, p.id ≠ id2) :
    (save_memory env id1 ts1 content store).1
      = "Memory saved successfully with ID: " ++ id1
    ∧ (save_memory env id2 ts2 content
        (save_memory env id1 ts1 content store).2).1
      = "Memory saved successfully with ID: " ++ id2
    ∧ (save_memory env id2 ts2 content
        (save_memory env id1 ts1 content store).2).2
      = store ++ [⟨id1, v, content, ts1⟩, ⟨id2, v, content, ts2⟩]
    ∧ (save_memory env id2 ts2 content
        (save_memory env id1 ts1 content store).2).2.length
      = store.length + 2
    ∧ (⟨id1, v, content, ts1⟩ : PointStruct)
        ∈ (save_memory env id2 ts2 content
            (save_memory env id1 ts1 content store).2).2
    ∧ (⟨id2, v, content, ts2⟩ : PointStruct)
        ∈ (save_memory env id2 ts2 content
            (save_memory env id1 ts1 content store).2).2
    ∧ (⟨id1, v, content, ts1⟩ : PointStruct) ≠ ⟨id2, v, content, ts2⟩ := by
  have hany1 : (store.any fun q => q.id == id1) = false := by
    rw [List.any_eq_false]
    intro p hp
    simp [hfresh1 p hp]
  have hsave1 : save_memory env id1 ts1 content store
      = ("Memory saved successfully with ID: " ++ id1,
         store ++ [⟨id1, v, content, ts1⟩]) := by
    simp [save_memory, save_memory_body, _generate_embedding, hembed, hupsert,
      upsertPoint, hany1]
  have hany2 : ((store ++ [(⟨id1, v, content, ts1⟩ : PointStruct)]).any
      fun q => q.id == id2) = false := by
    rw [List.any_eq_false]
    intro p hp
    rcases List.mem_append.mp hp with h | h
    · simp [hfresh2 p h]
    · simp only [List.mem_singleton] at h
      subst h
      simp [hne]
  have hsave2 : save_memory env id2 ts2 content (store ++ [⟨id1, v, content, ts1⟩])
      = ("Memory saved successfully with ID: " ++ id2,
         store ++ [⟨id1, v, content, ts1⟩] ++ [⟨id2, v, content, ts2⟩]) := by
    simp [save_memory, save_memory_body, _generate_embedding, hembed, hupsert,
      upsertPoint, hany2]
  refine ⟨by rw [hsave1], by rw [hsave1, hsave2], by rw [hsave1, hsave2]; simp, ?_, ?_, ?_, ?_⟩
  · rw [hsave1, hsave2]
    simp
  · rw [hsave1, hsave2]
    simp
  · rw [hsave1, hsave2]
    simp
  · simp [hne]

/-- Witness for C10: two saves of `"c"` under fresh ids `"id1"`, `"id2"`
into an empty store yield a two-record store. -/
theorem C10_two_saves_two_records_witness :
    (save_memory collectionsDownEnv "id2" "t2" "c"
        (save_memory collectionsDownEnv "id1" "t1" "c" []).2).2
      = [⟨"id1", [1], "c", "t1"⟩, ⟨"id2", [1], "c", "t2"⟩] := by
  have h := C10_two_saves_two_records collectionsDownEnv "id1" "id2" "t1" "t2" "c"
    [] [1] rfl rfl (by decide) (by simp) (by simp)
  simpa using h.2.2.1

/-! ## Configuration validation (`src/config/settings.py`) and startup
(`main`, `src/main.py`)

The process environment is a map from variable name to value; `none` means
the variable is unset.  `if not os.getenv(var)` treats an unset and an
empty variable alike. -/

def EnvMap : Type := String → Option String

/-- The `required_vars` list of `validate_environment`. -/
def required_vars : List String := ["OPENAI_API_KEY", "DATABASE_URL"]

/-- `not os.getenv(var)`: true when `var` is unset or set to the empty
string. -/
def envMissing (env : EnvMap) (v : String) : Bool :=
  match env v with
  | none => true
  | some s => s == ""

/-- `validate_environment`: returns `(is_valid, missing_vars)` where
`missing_vars` keeps the required variables that are unset, in order, and
`is_valid` holds exactly when that list is empty. -/
def validate_environment (env : EnvMap) : Bool × List String :=
  let missing_vars := required_vars.filter (envMissing env)
  (missing_vars.isEmpty, missing_vars)

/-- The observable startup actions of `main`, in program order.  Each
constructor stands for one region of `main` after `validate_environment`:
the missing-variables report, agent creation (`create_main_agent`), session
creation (`create_session_manager` / `create_session` / welcome banner), and
entry into the interactive chat loop. -/
inductive MainAction where
  | printMissingHeader
  | printMissingVar (v : String)
  | createAgent
  | createSession
  | enterChatLoop
deriving DecidableEq, Repr

/-- The startup sequence of `main`: on a failed validation it reports the
missing variables and returns; otherwise it creates the agent and session
and enters the chat loop. -/
def main_startup (env : EnvMap) : List MainAction :=
  let r := validate_environment env
  if r.1 then [.createAgent, .createSession, .enterChatLoop]
  else .printMissingHeader :: r.2.map .printMissingVar

/-- C7: if any required environment setting is unset, `main` reports exactly
the missing settings as an itemized list and returns without creating the
agent or the session and without entering the chat loop; if all are set it
proceeds. -/
theorem C7_startup_validation (env : EnvMap) :
    (required_vars.any (envMissing env) = true →
      main_startup env
        = MainAction.printMissingHeader
            :: (required_vars.filter (envMissing env)).map MainAction.printMissingVar
      ∧ MainAction.createAgent ∉ main_startup env
      ∧ MainAction.createSession ∉ main_startup env
      ∧ MainAction.enterChatLoop ∉ main_startup env)
    ∧ (required_vars.any (envMissing env) = false →
      main_startup env = [.createAgent, .createSession, .enterChatLoop]) := by
  constructor
  · intro h
    obtain ⟨x, hx, hpx⟩ := List.any_eq_true.mp h
    have hne : required_vars.filter (envMissing env) ≠ [] := by
      intro hnil
      exact absurd hpx (List.filter_eq_nil_iff.mp hnil x hx)
    have hmain : main_startup env
        = MainAction.printMissingHeader
            :: (required_vars.filter (envMissing env)).map MainAction.printMissingVar := by
      simp [main_startup, validate_environment, List.isEmpty_iff, hne]
    refine ⟨hmain, ?_, ?_, ?_⟩ <;> rw [hmain] <;> simp
  · intro h
    have hnil : required_vars.filter (envMissing env) = [] :=
      List.filter_eq_nil_iff.mpr fun x hx =>
        by simpa using List.any_eq_false.mp h x hx
    simp [main_startup, validate_environment, hnil]

/-- Witness for C7: with every variable unset, startup reports both required
settings and performs none of the later actions; with both set, it
proceeds. -/
theorem C7_startup_validation_witness :
    (main_startup (fun _ => none)
        = [MainAction.printMissingHeader, .printMissingVar "OPENAI_API_KEY",
           .printMissingVar "DATABASE_URL"]
      ∧ MainAction.createAgent ∉ main_startup (fun _ => none))
    ∧ main_startup (fun _ => some "x")
        = [.createAgent, .createSession, .enterChatLoop] :=
  ⟨⟨((C7_startup_validation (fun _ => none)).1 (by decide)).1,
    ((C7_startup_validation (fun _ => none)).1 (by decide)).2.1⟩,
   (C7_startup_validation (fun _ => some "x")).2 (by decide)⟩

/-! ## Session manager (`src/config/session_manager.py`) -/

/-- The mutable state of a `SessionManager` relevant to `cleanup`: the
lazily created engine handle (`_engine`, `None` when absent) and — to
observe disposal — the log of engine handles disposed so far.  Engine
handles are numbered. -/
structure SMState where
  engine : Option Nat
  disposed : List Nat
deriving DecidableEq, Repr

/-- `SessionManager.cleanup()`: if an engine exists, dispose it and set the
handle to `None`; otherwise do nothing. -/
def cleanup (s : SMState) : SMState :=
  match s.engine with
  | some e => { engine := none, disposed := s.disposed ++ [e] }
  | none => s

/-- Once cleaned up, further `cleanup` calls are no-ops. -/
lemma cleanup_cleanup (s : SMState) : cleanup (cleanup s) = cleanup s := by
  obtain ⟨eng, d⟩ := s
  cases eng <;> simp [cleanup]

/-- Iterating `cleanup` on an already-cleaned state changes nothing. -/
lemma cleanup_iterate (s : SMState) (m : Nat) :
    cleanup^[m] (cleanup s) = cleanup s := by
  induction m with
  | zero => rfl
  | succ k ih => rw [Function.iterate_succ_apply, cleanup_cleanup]; exact ih

/-- C9: `cleanup` is idempotent — calling it `n ≥ 1` times from any state
equals calling it once; afterwards the engine handle is `None`, and the
engine that existed (if any) was disposed exactly once. -/
theorem C9_cleanup_idempotent (s : SMState) (n : Nat) (h : 1 ≤ n) :
    cleanup^[n] s = cleanup s
    ∧ cleanup (cleanup s) = cleanup s
    ∧ (cleanup s).engine = none
    ∧ (cleanup s).disposed = s.disposed ++ s.engine.toList
    ∧ (cleanup^[n] s).disposed = s.disposed ++ s.engine.toList := by
  obtain ⟨m, rfl⟩ : ∃ m, n = m + 1 :=
    ⟨n - 1, (Nat.succ_pred_eq_of_pos h).symm⟩
  have hiter : cleanup^[m + 1] s = cleanup s := by
    rw [Function.iterate_succ_apply]
    exact cleanup_iterate s m
  have hnone : (cleanup s).engine = none := by
    obtain ⟨eng, d⟩ := s
    cases eng <;> simp [cleanup]
  have hdisp : (cleanup s).disposed = s.disposed ++ s.engine.toList := by
    obtain ⟨eng, d⟩ := s
    cases eng <;> simp [cleanup, Option.toList]
  exact ⟨hiter, cleanup_cleanup s, hnone, hdisp, by rw [hiter]; exact hdisp⟩

/-- Witness for C9: three consecutive cleanups from a state holding engine
`0` equal a single cleanup, which disposes engine `0` exactly once. -/
theorem C9_cleanup_idempotent_witness :
    cleanup^[3] ⟨some 0, []⟩ = cleanup ⟨some 0, []⟩
    ∧ (cleanup ⟨some 0, []⟩).disposed = [0] := by
  have h := C9_cleanup_idempotent ⟨some 0, []⟩ 3 (by decide)
  exact ⟨h.1, by rw [h.2.2.2.1]; rfl⟩

end Evo
